import Mathlib

/-!
# Verification of the SheetSane analysis engine (`src/lib/analyzer.ts`)

A shallow embedding of the spreadsheet analysis engine.  The parsed workbook
(produced by the external `xlsx` library) is modelled as a `Workbook` value:
an ordered list of sheet names together with a sheet lookup and the
workbook-level hidden-sheet metadata.  Every check of `analyzer.ts` is
translated as a pure function producing the list of findings it appends, in
the order the source pushes them.

Nondeterminism in the source (`uuidv4()` for finding ids, `new Date()` for the
timestamp) is modelled by an explicit environment `Env`: the n-th finding
pushed receives the n-th drawn id, exactly mirroring the one-`uuidv4()`-call-
per-push discipline of the source; `analyzedAt` is the environment's clock
value.  Everything else is a pure function of the workbook and the selected
key column.

JavaScript value details are modelled as follows: cell values are a tagged
union (number / string / boolean), with numbers restricted to integers (all
claims concern integer or string data; `String(n)` agrees with `toString` on
integers); `String(x || '')` is `jsStringOrEmpty` (JS falsiness: `0`, `''`,
`false`, `undefined`); `!s.trim()` is `isBlankString` (all characters
whitespace); JS object key enumeration (`Object.entries`) lists integer-like
keys first in ascending numeric order, then the remaining keys in insertion
order, modelled by `recordEntries` over an insertion-ordered association
list.
-/

/-! ## Data model (`src/lib/types.ts`) -/

inductive Severity where
  | error
  | warning
  | info
deriving DecidableEq, Repr

/-- A finding as pushed by the checks, before a uuid is attached
(`Finding` in `types.ts` minus the `id` field). -/
structure Finding0 where
  severity : Severity
  category : String
  sheet : String
  column : Option String := none
  cellRef : Option String := none
  rowNumbers : Option (List Nat) := none
  description : String
  suggestion : String
deriving DecidableEq, Repr

/-- `Finding` from `types.ts`: a finding with its `uuidv4()` id. -/
structure Finding where
  id : String
  severity : Severity
  category : String
  sheet : String
  column : Option String := none
  cellRef : Option String := none
  rowNumbers : Option (List Nat) := none
  description : String
  suggestion : String
deriving DecidableEq, Repr

def Finding0.withId (f : Finding0) (i : String) : Finding :=
  ⟨i, f.severity, f.category, f.sheet, f.column, f.cellRef, f.rowNumbers,
    f.description, f.suggestion⟩

def Finding.dropId (f : Finding) : Finding0 :=
  ⟨f.severity, f.category, f.sheet, f.column, f.cellRef, f.rowNumbers,
    f.description, f.suggestion⟩

/-- `SheetInfo` from `types.ts`. -/
structure SheetInfo where
  name : String
  isHidden : Bool
  rowCount : Nat
  columnCount : Nat
  headers : List String
  hasData : Bool
deriving DecidableEq, Repr

/-- `AnalysisResult` from `types.ts`. -/
structure AnalysisResult where
  fileId : String
  fileName : String
  analyzedAt : String
  score : Int
  scoreExplanation : String
  errorCount : Nat
  warningCount : Nat
  infoCount : Nat
  findings : List Finding
  sheets : List SheetInfo
deriving DecidableEq, Repr

/-- The selected key column (`{ sheet, column, columnIndex }`). -/
structure KeyColumn where
  sheet : String
  column : String
  columnIndex : Nat
deriving DecidableEq, Repr

/-! ## Workbook model (the parsed `XLSX.WorkBook`) -/

/-- A cell value as stored by the `xlsx` parser (`cell.v`).  Numbers are
restricted to integers; `String(v)` on an integer agrees with `toString`. -/
inductive CellVal where
  | num (n : Int)
  | str (s : String)
  | bool (b : Bool)
deriving DecidableEq, Repr

/-- JS truthiness of a cell value: `0`, `''` and `false` are falsy. -/
def CellVal.falsy : CellVal → Bool
  | .num n => n = 0
  | .str s => s = ""
  | .bool b => !b

/-- JS `String(v)` for a defined cell value. -/
def CellVal.jsString : CellVal → String
  | .num n => toString n
  | .str s => s
  | .bool b => if b then "true" else "false"

/-- JS `String(v)` where `v` may be `undefined`. -/
def jsStringOfOpt : Option CellVal → String
  | some v => v.jsString
  | none => "undefined"

/-- JS `String(x || '')` for a possibly-undefined cell value `x`:
falsy values (including `undefined`, `0`, `false`, `''`) give `''`. -/
def jsStringOrEmpty : Option CellVal → String
  | some v => if v.falsy then "" else v.jsString
  | none => ""

/-- A worksheet cell (`XLSX.CellObject`): type tag `t`, value `v`
(possibly undefined), formatted text `w` (possibly undefined). -/
structure Cell where
  t : String
  v : Option CellVal := none
  w : Option String := none
deriving DecidableEq, Repr

/-- A decoded cell range (`XLSX.Range`): start/end row and column indices. -/
structure Range where
  sr : Nat
  sc : Nat
  er : Nat
  ec : Nat
deriving DecidableEq, Repr

/-- A worksheet: the decoded `!ref` range (absent when the sheet stores no
range) and a sparse (row, column) ↦ cell mapping. -/
structure Worksheet where
  ref : Option Range
  cells : Nat → Nat → Option Cell

/-- `XLSX.utils.decode_range(worksheet['!ref'] || 'A1')`:
a missing `!ref` defaults to the 1×1 range `A1`. -/
def wsRange (ws : Worksheet) : Range :=
  ws.ref.getD ⟨0, 0, 0, 0⟩

/-- The parsed workbook: `SheetNames` in declaration order, the
`Sheets` lookup, and the per-sheet visibility level from
`Workbook.Sheets` metadata (`0` visible, `1` hidden, `2` very hidden). -/
structure Workbook where
  sheetNames : List String
  sheets : String → Worksheet
  hiddenLevel : String → Nat

/-! ## Small JS helpers -/

/-- The list `[s, s+1, …, e]` — the index set of a JS
`for (i = s; i <= e; i++)` loop (empty when `e < s`). -/
def idxList (s e : Nat) : List Nat :=
  List.range' s (e + 1 - s)

/-- Models `!value.trim()`: true iff the string is empty after trimming,
i.e. every character is whitespace. -/
def isBlankString (s : String) : Bool :=
  s.toList.all Char.isWhitespace

/-- ASCII lower-casing, modelling the `i` regex flag / `toLowerCase`. -/
def lowerStr (s : String) : String :=
  String.mk (s.toList.map Char.toLower)

/-- `needle` occurs as a contiguous substring of the haystack list. -/
def listContainsSub (needle : List Char) : List Char → Bool
  | [] => needle.isEmpty
  | c :: rest => needle.isPrefixOf (c :: rest) || listContainsSub needle rest

/-- String containment (used to state what a finding's text does or does
not mention). -/
def strContains (hay needle : String) : Bool :=
  listContainsSub needle.toList hay.toList

/-! ## JS `Record` (plain object) modelling

The checks accumulate JS objects (`headerCounts`, `errorGroups`,
`valueCounts`) keyed by strings.  Insertion is modelled by an
association list updated in place (`bumpCount`, `bumpList`);
`Object.entries` enumeration order — integer-like keys first in ascending
numeric order, then the rest in insertion order — is `recordEntries`. -/

/-- `headerCounts[value] = (headerCounts[value] || 0) + 1`. -/
def bumpCount (m : List (String × Nat)) (k : String) : List (String × Nat) :=
  if m.any (fun p => p.1 == k) then
    m.map (fun p => if p.1 == k then (p.1, p.2 + 1) else p)
  else
    m ++ [(k, 1)]

/-- `if (!obj[k]) obj[k] = []; obj[k].push(x)`. -/
def bumpList {β : Type} (m : List (String × List β)) (k : String) (x : β) :
    List (String × List β) :=
  if m.any (fun p => p.1 == k) then
    m.map (fun p => if p.1 == k then (p.1, p.2 ++ [x]) else p)
  else
    m ++ [(k, [x])]

/-- Decimal value of a digit string. -/
def digitsToNat (cs : List Char) : Nat :=
  cs.foldl (fun acc c => acc * 10 + (c.toNat - 48)) 0

/-- `String.toNat?` restated over the character list (kernel-reducible). -/
def strToNat? (s : String) : Option Nat :=
  let cs := s.toList
  if cs ≠ [] && cs.all Char.isDigit then some (digitsToNat cs) else none

/-- A string is a JS array-index key: the canonical decimal form of a
natural number below `2^32 - 1`. -/
def isArrayIndexStr (s : String) : Bool :=
  match strToNat? s with
  | some n => decide (toString n = s ∧ n < 4294967295)
  | none => false

/-- Numeric value of an array-index key (used only on such keys). -/
def keyNum (s : String) : Nat :=
  (strToNat? s).getD 0

/-- Insertion sort, ascending by `keyNum` of the key. -/
def insertByNum {β : Type} (p : String × β) :
    List (String × β) → List (String × β)
  | [] => [p]
  | q :: rest =>
    if keyNum p.1 ≤ keyNum q.1 then p :: q :: rest else q :: insertByNum p rest

def sortByNum {β : Type} : List (String × β) → List (String × β)
  | [] => []
  | p :: rest => insertByNum p (sortByNum rest)

/-- `Object.entries` enumeration order for a JS object built by the
insertion-ordered association list `m`: array-index keys first in ascending
numeric order, then the remaining keys in insertion order. -/
def recordEntries {β : Type} (m : List (String × β)) : List (String × β) :=
  sortByNum (m.filter fun p => isArrayIndexStr p.1) ++
    m.filter (fun p => !(isArrayIndexStr p.1))

/-! ## Constants (`src/lib/limits.ts`, `analyzer.ts`) -/

def MAX_SHEETS : Nat := 20
def MAX_ROWS_PER_SHEET : Nat := 10000
def MAX_COLS_PER_SHEET : Nat := 200

/-- Excel error values to detect (`EXCEL_ERRORS`). -/
def EXCEL_ERRORS : List String :=
  ["#REF!", "#DIV/0!", "#NAME?", "#VALUE!", "#N/A", "#NULL!", "#NUM!",
    "#GETTING_DATA"]

/-! ## `getColumnLetter` -/

/-- The `while (temp >= 0)` loop body of `getColumnLetter`, with explicit
fuel (the loop runs at most `index + 1` times: `temp` strictly decreases and
the loop exits once `temp < 0`; running out of fuel at that point returns the
accumulated letters, which coincides with the loop's own exit). -/
def getColumnLetterLoop : Nat → Int → String → String
  | 0, _, letter => letter
  | fuel + 1, temp, letter =>
    if 0 ≤ temp then
      getColumnLetterLoop fuel (temp / 26 - 1)
        (String.singleton (Char.ofNat ((temp % 26).toNat + 65)) ++ letter)
    else
      letter

/-- `getColumnLetter` from `analyzer.ts` (0 = A, 25 = Z, 26 = AA, …). -/
def getColumnLetter (index : Nat) : String :=
  getColumnLetterLoop (index + 1) index ""

/-- `XLSX.utils.encode_cell({ r, c })`: column letters followed by the
1-indexed row number. -/
def encodeCell (r c : Nat) : String :=
  getColumnLetter c ++ toString (r + 1)

/-! ## `getSheetInfo` -/

/-- The header string of a possibly-absent row-0 cell:
`cell ? String(cell.v || '') : ''`. -/
def headerString (c : Option Cell) : String :=
  match c with
  | some cell => jsStringOrEmpty cell.v
  | none => ""

/-- `getSheetInfo` from `analyzer.ts`. -/
def getSheetInfo (wb : Workbook) : List SheetInfo :=
  wb.sheetNames.map fun sheetName =>
    let ws := wb.sheets sheetName
    let range := wsRange ws
    let lv := wb.hiddenLevel sheetName
    let headers := (idxList range.sc range.ec).map fun col =>
      headerString (ws.cells range.sr col)
    { name := sheetName
      isHidden := lv == 1 || lv == 2
      rowCount := range.er - range.sr + 1
      columnCount := range.ec - range.sc + 1
      headers := headers
      hasData := decide (range.er - range.sr + 1 > 1) }

/-! ## Per-sheet checks -/

/-- The clamped processing range of a sheet (`limitedRange` in
`analyzeWorkbook`). -/
def limitedRange (range : Range) : Range :=
  let totalRows := range.er - range.sr + 1
  let totalCols := range.ec - range.sc + 1
  let maxRow := if totalRows > MAX_ROWS_PER_SHEET then
    range.sr + MAX_ROWS_PER_SHEET - 1 else range.er
  let maxCol := if totalCols > MAX_COLS_PER_SHEET then
    range.sc + MAX_COLS_PER_SHEET - 1 else range.ec
  ⟨range.sr, range.sc, maxRow, maxCol⟩

/-- The row/column clamp warning for one sheet ("Check row and column
limits" block of `analyzeWorkbook`). -/
def limitFindings (sheetName : String) (range : Range) : List Finding0 :=
  let totalRows := range.er - range.sr + 1
  let totalCols := range.ec - range.sc + 1
  let rowsExceeded := totalRows > MAX_ROWS_PER_SHEET
  let colsExceeded := totalCols > MAX_COLS_PER_SHEET
  if rowsExceeded || colsExceeded then
    let limits :=
      (if rowsExceeded then
        [toString totalRows ++ " rows (limit: " ++ toString MAX_ROWS_PER_SHEET ++ ")"]
      else []) ++
      (if colsExceeded then
        [toString totalCols ++ " columns (limit: " ++ toString MAX_COLS_PER_SHEET ++ ")"]
      else [])
    [{ severity := .warning
       category := "Processing Limits"
       sheet := sheetName
       description := "Sheet \"" ++ sheetName ++ "\" exceeds processing limits: " ++
         String.intercalate ", " limits ++ ". Only the first " ++
         toString MAX_ROWS_PER_SHEET ++ " rows and " ++
         toString MAX_COLS_PER_SHEET ++ " columns will be analyzed."
       suggestion := "Consider splitting large sheets or analyzing in sections. Results may be incomplete for this sheet." }]
  else []

/-- Whether the header of column `col` (row `sr`) is blank:
`!value.trim()` on `cell ? String(cell.v || '') : ''`. -/
def isBlankHeader (ws : Worksheet) (sr col : Nat) : Bool :=
  isBlankString (headerString (ws.cells sr col))

/-- The `emptyHeaders` list of the header-quality check: the column letters
of the blank header columns, in column order. -/
def emptyHeaderLetters (ws : Worksheet) (sr : Nat) (limited : Range) :
    List String :=
  ((idxList limited.sc limited.ec).filter fun col =>
    isBlankHeader ws sr col).map getColumnLetter

/-- The `headerCounts` object: non-blank header values with their
occurrence counts, in insertion order. -/
def headerCounts (ws : Worksheet) (sr : Nat) (limited : Range) :
    List (String × Nat) :=
  (idxList limited.sc limited.ec).foldl
    (fun m col =>
      let value := headerString (ws.cells sr col)
      if isBlankString value then m else bumpCount m value)
    []

/-- The missing/empty-header part of the header-quality check
(the `if … else if …` on `emptyHeaders` in `analyzeWorkbook`). -/
def blankHeaderFindings (ws : Worksheet) (sr : Nat) (limited : Range)
    (sheetName : String) : List Finding0 :=
  let emptyHeaders := emptyHeaderLetters ws sr limited
  if emptyHeaders.length = limited.ec - limited.sc + 1 then
    [{ severity := .error
       category := "Header Quality"
       sheet := sheetName
       description := "Missing header row - first row is completely blank"
       suggestion := "Add descriptive column headers in the first row." }]
  else if emptyHeaders.length > 0 then
    [{ severity := .warning
       category := "Header Quality"
       sheet := sheetName
       column := some (String.intercalate ", " emptyHeaders)
       description := "Empty column headers in columns: " ++
         String.intercalate ", " emptyHeaders
       suggestion := "Add headers to all columns for better data clarity." }]
  else []

/-- The duplicate-header part of the header-quality check. -/
def dupHeaderFindings (ws : Worksheet) (sr : Nat) (limited : Range)
    (sheetName : String) : List Finding0 :=
  let duplicates := ((recordEntries (headerCounts ws sr limited)).filter
    fun p => p.2 > 1).map fun p => p.1
  if duplicates.length > 0 then
    [{ severity := .warning
       category := "Header Quality"
       sheet := sheetName
       description := "Duplicate column headers: " ++
         String.intercalate ", " duplicates
       suggestion := "Rename duplicate headers to ensure unique column identifiers." }]
  else []

/-- The empty-data check (`range.e.r === range.s.r`, on the unclamped
range). -/
def emptyDataFindings (range : Range) (sheetName : String) : List Finding0 :=
  if range.er = range.sr then
    [{ severity := .warning
       category := "Empty Data"
       sheet := sheetName
       description := "Sheet contains only header row with no data rows"
       suggestion := "Add data rows or remove empty sheet if not needed." }]
  else []

/-- `String(cell.w || cell.v)` for an error-typed cell. -/
def errDisplay (cell : Cell) : String :=
  match cell.w with
  | some w => if w = "" then jsStringOfOpt cell.v else w
  | none => jsStringOfOpt cell.v

/-- The `(ref, error)` pairs collected by the formula/error-value scan,
in row-major order over the clamped range. -/
def errorCellList (ws : Worksheet) (limited : Range) :
    List (String × String) :=
  (idxList limited.sr limited.er).flatMap fun row =>
    (idxList limited.sc limited.ec).filterMap fun col =>
      match ws.cells row col with
      | none => none
      | some cell =>
        if cell.t = "e" then
          some (encodeCell row col, errDisplay cell)
        else
          match cell.v with
          | some (.str s) =>
            if EXCEL_ERRORS.contains s then some (encodeCell row col, s)
            else none
          | _ => none

/-- Fixed remediation suggestions (`getErrorSuggestion`). -/
def getErrorSuggestion (error : String) : String :=
  if error = "#REF!" then
    "Fix broken cell references. A referenced cell may have been deleted."
  else if error = "#DIV/0!" then
    "Check formulas dividing by zero. Add error handling or fix denominator."
  else if error = "#NAME?" then
    "Fix undefined function or named range. Check for typos in formula names."
  else if error = "#VALUE!" then
    "Correct data type mismatch. Ensure formula inputs are correct types."
  else if error = "#N/A" then
    "Fix lookup formula - value not found. Check lookup criteria and data."
  else if error = "#NULL!" then
    "Correct range intersection error. Use proper range operators."
  else if error = "#NUM!" then
    "Fix invalid numeric value in formula. Check for out-of-range numbers."
  else if error = "#GETTING_DATA" then
    "Wait for external data to load or check data connection."
  else
    "Review and fix the formula error."

/-- The formula/error-value findings: erroring cells grouped by error token
(one `error` finding per token, in `Object.entries` order). -/
def formulaErrorFindings (ws : Worksheet) (limited : Range)
    (sheetName : String) : List Finding0 :=
  let errorCells := errorCellList ws limited
  if errorCells.length > 0 then
    let errorGroups := errorCells.foldl (fun m p => bumpList m p.2 p.1) []
    (recordEntries errorGroups).map fun p =>
      let refs := p.2
      let displayRefs :=
        if refs.length > 10 then
          String.intercalate ", " (refs.take 10) ++ " and " ++
            toString (refs.length - 10) ++ " more"
        else String.intercalate ", " refs
      { severity := .error
        category := "Formula Errors"
        sheet := sheetName
        cellRef := some displayRefs
        description := toString refs.length ++ " cell(s) contain " ++ p.1 ++
          " error: " ++ displayRefs
        suggestion := getErrorSuggestion p.1 }
  else []

/-! ## Date patterns (`DATE_PATTERNS`) -/

/-- A separator character of the numeric date regexes: `/`, `-` or `.`. -/
def isSepChar (c : Char) : Bool :=
  c == '/' || c == '-' || c == '.'

/-- `/^\d{1,2}[\/\-\.]\d{1,2}[\/\-\.]\d{2,4}$/` — since each digit group is
followed by a non-digit (separator or end), greedy matching with
backtracking is equivalent to: the maximal digit run has the stated
length. -/
def matchesDatePattern1 (s : String) : Bool :=
  let cs := s.toList
  let sp1 := cs.span Char.isDigit
  match sp1.2 with
  | c1 :: r2 =>
    if isSepChar c1 && decide (1 ≤ sp1.1.length) && decide (sp1.1.length ≤ 2) then
      let sp2 := r2.span Char.isDigit
      match sp2.2 with
      | c2 :: r4 =>
        if isSepChar c2 && decide (1 ≤ sp2.1.length) && decide (sp2.1.length ≤ 2) then
          let sp3 := r4.span Char.isDigit
          sp3.2.isEmpty && decide (2 ≤ sp3.1.length) && decide (sp3.1.length ≤ 4)
        else false
      | [] => false
    else false
  | [] => false

/-- `/^\d{4}[\/\-\.]\d{1,2}[\/\-\.]\d{1,2}$/`. -/
def matchesDatePattern2 (s : String) : Bool :=
  let cs := s.toList
  let sp1 := cs.span Char.isDigit
  match sp1.2 with
  | c1 :: r2 =>
    if isSepChar c1 && decide (sp1.1.length = 4) then
      let sp2 := r2.span Char.isDigit
      match sp2.2 with
      | c2 :: r4 =>
        if isSepChar c2 && decide (1 ≤ sp2.1.length) && decide (sp2.1.length ≤ 2) then
          let sp3 := r4.span Char.isDigit
          sp3.2.isEmpty && decide (1 ≤ sp3.1.length) && decide (sp3.1.length ≤ 2)
        else false
      | [] => false
    else false
  | [] => false

/-- The alternatives of the third date pattern. -/
def MONTH_PREFIXES : List String :=
  ["jan", "feb", "mar", "apr", "may", "jun", "jul", "aug", "sep", "oct",
    "nov", "dec"]

/-- `/^(jan|feb|mar|apr|may|jun|jul|aug|sep|oct|nov|dec)/i` — an unanchored
tail: any string whose lower-cased form merely starts with a three-letter
month abbreviation matches. -/
def matchesDatePattern3 (s : String) : Bool :=
  MONTH_PREFIXES.any fun m => m.toList.isPrefixOf (lowerStr s).toList

/-- `DATE_PATTERNS.some(pattern => pattern.test(v))`. -/
def isDateLikeString (s : String) : Bool :=
  matchesDatePattern1 s || matchesDatePattern2 s || matchesDatePattern3 s

/-! ## Data-type anomaly detection -/

/-- One collected column entry (`{ value, type, row }`, `row` 1-indexed). -/
structure ColValue where
  value : CellVal
  type : String
  row : Nat
deriving DecidableEq, Repr

/-- The non-blank values of one column over the clamped range, skipping the
header row (`for (row = range.s.r + 1; row <= maxDataRow; …)` with
`maxDataRow = Math.min(range.e.r, range.s.r + MAX_ROWS_PER_SHEET)`). -/
def columnValues (ws : Worksheet) (range : Range) (col : Nat) :
    List ColValue :=
  let maxDataRow := min range.er (range.sr + MAX_ROWS_PER_SHEET)
  (idxList (range.sr + 1) maxDataRow).filterMap fun row =>
    match ws.cells row col with
    | some cell =>
      match cell.v with
      | some v => some ⟨v, cell.t, row + 1⟩
      | none => none
    | none => none

/-- `Math.round(count / len * 100)` for `0 ≤ count ≤ len`, `len > 0`:
exact over the rationals (round half up). -/
def pctRound (count len : Nat) : Nat :=
  (200 * count + len) / (2 * len)

/-- `analyzeDataTypeAnomalies` from `analyzer.ts`, returning the findings it
appends.  The comparisons `count / len > 0.2`, `count > len * 0.5` and
`count > len * 0.2` are stated over the integers (`5 * count > len`,
`2 * count > len`); for natural `count`, `len` these agree with the source's
double-precision comparisons. -/
def analyzeDataTypeAnomalies (ws : Worksheet) (range : Range)
    (sheetName : String) : List Finding0 :=
  (idxList range.sc range.ec).flatMap fun col =>
    let headerValue := headerString (ws.cells range.sr col)
    let colLetter := getColumnLetter col
    let values := columnValues ws range col
    if values.length < 5 then []
    else
      let textDateCount := (values.filter fun v =>
        match v.value with
        | .str s => isDateLikeString s
        | _ => false).length
      let dateFindings :=
        if textDateCount > 0 && 5 * textDateCount > values.length then
          [{ severity := .warning
             category := "Data Type Anomaly"
             sheet := sheetName
             column := some (if headerValue = "" then colLetter else headerValue)
             description := toString textDateCount ++ " values (" ++
               toString (pctRound textDateCount values.length) ++
               "%) appear to be text-formatted dates"
             suggestion := "Convert text dates to proper Excel date format for better sorting and calculations." }]
        else []
      let numericCount := (values.filter fun v => v.type = "n").length
      let stringCount := (values.filter fun v => v.type = "s").length
      let mixedFindings :=
        if 2 * numericCount > values.length && 5 * stringCount > values.length then
          [{ severity := .warning
             category := "Data Type Anomaly"
             sheet := sheetName
             column := some (if headerValue = "" then colLetter else headerValue)
             description := "Mixed data types: " ++ toString numericCount ++
               " numeric and " ++ toString stringCount ++
               " text values in a predominantly numeric column"
             suggestion := "Standardize column data types. Convert text numbers to numeric format." }]
        else []
      dateFindings ++ mixedFindings

/-! ## Duplicate-key detection -/

/-- The `(String(cell.v), row + 1)` pairs scanned by `detectDuplicateKeys`
over the non-blank data cells of the key column (header row excluded,
row limit respected), in row order. -/
def keyRows (ws : Worksheet) (range : Range) (columnIndex : Nat) :
    List (String × Nat) :=
  let maxDataRow := min range.er (range.sr + MAX_ROWS_PER_SHEET)
  (idxList (range.sr + 1) maxDataRow).filterMap fun row =>
    match ws.cells row columnIndex with
    | some cell =>
      match cell.v with
      | some v => some (v.jsString, row + 1)
      | none => none
    | none => none

/-- The `valueCounts` object: stringified value ↦ list of 1-indexed rows. -/
def valueCounts (ws : Worksheet) (range : Range) (columnIndex : Nat) :
    List (String × List Nat) :=
  (keyRows ws range columnIndex).foldl (fun m p => bumpList m p.1 p.2) []

/-- `Object.entries(valueCounts).filter(([, rows]) => rows.length > 1)` —
the duplicate groups, in `Object.entries` order. -/
def dupGroups (ws : Worksheet) (range : Range) (columnIndex : Nat) :
    List (String × List Nat) :=
  (recordEntries (valueCounts ws range columnIndex)).filter
    fun p => p.2.length > 1

/-- `detectDuplicateKeys` from `analyzer.ts`, returning the findings it
appends. -/
def detectDuplicateKeys (ws : Worksheet) (range : Range) (kc : KeyColumn) :
    List Finding0 :=
  let duplicates := dupGroups ws range kc.columnIndex
  if duplicates.length > 0 then
    let totalDuplicateRows := (duplicates.map fun d => d.2.length).sum
    let displayDuplicates := (duplicates.take 5).map fun d =>
      "\"" ++ d.1 ++ "\" (rows " ++
        String.intercalate ", " ((d.2.take 3).map toString) ++
        (if d.2.length > 3 then "..." else "") ++ ")"
    [{ severity := .error
       category := "Duplicate Keys"
       sheet := kc.sheet
       column := some kc.column
       rowNumbers := some (duplicates.flatMap fun d => d.2)
       description := toString duplicates.length ++
         " duplicate values found affecting " ++ toString totalDuplicateRows ++
         " rows: " ++ String.intercalate "; " displayDuplicates ++
         (if duplicates.length > 5 then
           " and " ++ toString (duplicates.length - 5) ++ " more"
         else "")
       suggestion := "Remove or fix duplicate key values to ensure data integrity." }]
  else []

/-! ## Scoring (`calculateScore`) -/

/-- `calculateScore` from `analyzer.ts`: the 0–100 score and its
human-readable explanation. -/
def calculateScore (findings : List Finding) : Int × String :=
  let errors := (findings.filter fun f => f.severity = Severity.error).length
  let warnings := (findings.filter fun f => f.severity = Severity.warning).length
  let errorPenalty := min (errors * 10) 70
  let warningPenalty := min (warnings * 3) 30
  let score : Int := 100 - errorPenalty - warningPenalty
  let score := max 0 score
  let explanation := "Starting score: 100. " ++
    (if errors > 0 then
      toString errors ++ " error(s) × 10 points = -" ++
        toString errorPenalty ++ " (capped at 70). "
    else "") ++
    (if warnings > 0 then
      toString warnings ++ " warning(s) × 3 points = -" ++
        toString warningPenalty ++ " (capped at 30). "
    else "") ++
    (if errors = 0 && warnings = 0 then "No issues found! " else "") ++
    "Final score: " ++ toString score ++ "/100."
  (score, explanation)

/-! ## Result assembly and `analyzeWorkbook` -/

/-- The sources of nondeterminism of one `analyzeWorkbook` call: the stream
of `uuidv4()` draws (the n-th pushed finding receives the n-th draw) and the
`new Date().toISOString()` clock value. -/
structure Env where
  uuids : Nat → String
  now : String

/-- Attach ids starting from draw `k`: the head finding receives
`env.uuids k`, the next `env.uuids (k+1)`, and so on. -/
def attachIdsFrom (env : Env) : Nat → List Finding0 → List Finding
  | _, [] => []
  | k, f :: rest => f.withId (env.uuids k) :: attachIdsFrom env (k + 1) rest

/-- Attach the drawn uuids to the findings in push order. -/
def attachIds (env : Env) (fs : List Finding0) : List Finding :=
  attachIdsFrom env 0 fs

/-- The `AnalysisResult` record literal shared by `analyzeWorkbook`'s
normal return and `createEmptyResult`: attach ids, compute the score, and
count findings by severity. -/
def buildResult (env : Env) (fileId fileName : String)
    (findings0 : List Finding0) (sheets : List SheetInfo) : AnalysisResult :=
  let findings := attachIds env findings0
  let sc := calculateScore findings
  { fileId := fileId
    fileName := fileName
    analyzedAt := env.now
    score := sc.1
    scoreExplanation := sc.2
    errorCount := (findings.filter fun f => f.severity = Severity.error).length
    warningCount := (findings.filter fun f => f.severity = Severity.warning).length
    infoCount := (findings.filter fun f => f.severity = Severity.info).length
    findings := findings
    sheets := sheets }

/-- `createEmptyResult` from `analyzer.ts` (the zero-sheet early return). -/
def createEmptyResult (env : Env) (fileId fileName : String)
    (findings0 : List Finding0) (sheets : List SheetInfo) : AnalysisResult :=
  buildResult env fileId fileName findings0 sheets

/-- The workbook-integrity finding pushed when the workbook has no
sheets. -/
def noSheetsFinding : Finding0 :=
  { severity := .error
    category := "Workbook Integrity"
    sheet := "-"
    description := "No sheets found in workbook"
    suggestion := "Ensure the Excel file contains at least one worksheet with data." }

/-- The workbook-level sheet-clamp warning (emitted when the workbook has
more than `MAX_SHEETS` sheets). -/
def sheetLimitFinding (sheetNames sheetsToProcess : List String) : Finding0 :=
  { severity := .warning
    category := "Processing Limits"
    sheet := "-"
    description := "Workbook contains " ++ toString sheetNames.length ++
      " sheets. Only the first " ++ toString MAX_SHEETS ++
      " sheets will be analyzed due to processing limits."
    suggestion := "Consider splitting your workbook or analyzing sheets in batches. Only sheets: " ++
      String.intercalate ", " sheetsToProcess ++ " will be processed." }

/-- The hidden-sheets check: one warning naming all hidden sheets. -/
def hiddenSheetFindings (sheets : List SheetInfo) : List Finding0 :=
  let hiddenSheets := sheets.filter fun s => s.isHidden
  if hiddenSheets.length > 0 then
    let names := String.intercalate ", " (hiddenSheets.map fun s => s.name)
    [{ severity := .warning
       category := "Hidden Sheets"
       sheet := names
       description := toString hiddenSheets.length ++
         " hidden sheet(s) found: " ++ names
       suggestion := "Review hidden sheets for important data that may be overlooked." }]
  else []

/-- All findings appended while processing one sheet, in push order:
row/column clamp warning, header quality (blank then duplicate), empty
data, formula/error values, data-type anomalies, and — when the selected
key column targets this sheet — duplicate keys. -/
def sheetFindings (wb : Workbook) (sheetName : String)
    (selectedKeyColumn : Option KeyColumn) : List Finding0 :=
  let ws := wb.sheets sheetName
  let range := wsRange ws
  let limited := limitedRange range
  limitFindings sheetName range ++
    blankHeaderFindings ws range.sr limited sheetName ++
    dupHeaderFindings ws range.sr limited sheetName ++
    emptyDataFindings range sheetName ++
    formulaErrorFindings ws limited sheetName ++
    analyzeDataTypeAnomalies ws limited sheetName ++
    (match selectedKeyColumn with
     | some kc => if kc.sheet = sheetName then detectDuplicateKeys ws limited kc else []
     | none => [])

/-- `analyzeWorkbook` from `analyzer.ts`, over the parsed workbook model.
Fixed input bytes determine a fixed parsed `Workbook` (parsing is a pure
external transform), so the byte-level inputs of the source are represented
by the `Workbook` argument. -/
def analyzeWorkbook (env : Env) (wb : Workbook) (fileId fileName : String)
    (selectedKeyColumn : Option KeyColumn) : AnalysisResult :=
  let sheets := getSheetInfo wb
  if wb.sheetNames.length = 0 then
    createEmptyResult env fileId fileName [noSheetsFinding] sheets
  else
    let sheetsToProcess := wb.sheetNames.take MAX_SHEETS
    let limitF := if wb.sheetNames.length > MAX_SHEETS then
      [sheetLimitFinding wb.sheetNames sheetsToProcess] else []
    let hiddenF := hiddenSheetFindings sheets
    let perSheet := sheetsToProcess.flatMap fun n =>
      sheetFindings wb n selectedKeyColumn
    buildResult env fileId fileName (limitF ++ hiddenF ++ perSheet) sheets

/-! ## Concrete workbooks used as witnesses and counterexamples -/

/-- An environment with a fixed uuid stream and clock. -/
def env0 : Env := ⟨fun n => "id-" ++ toString n, "2024-01-01T00:00:00.000Z"⟩

/-- Two environments whose uuid draws differ (two separate calls of the
source never draw the same uuids). -/
def envA : Env := ⟨fun _ => "aaaaaaaa-0000-0000-0000-000000000000", "2024-01-01T00:00:00.000Z"⟩

def envB : Env := ⟨fun _ => "bbbbbbbb-0000-0000-0000-000000000000", "2024-01-01T00:00:00.000Z"⟩

/-- A workbook with no sheets. -/
def wbEmpty : Workbook := ⟨[], fun _ => ⟨none, fun _ _ => none⟩, fun _ => 0⟩

/-! ## Generic lemmas -/

theorem severity_partition (fs : List Finding) :
    (fs.filter fun f => f.severity = Severity.error).length +
      (fs.filter fun f => f.severity = Severity.warning).length +
      (fs.filter fun f => f.severity = Severity.info).length = fs.length := by
  induction fs with
  | nil => rfl
  | cons f rest ih =>
    cases h : f.severity <;> simp [List.filter_cons, h] <;> omega

theorem Finding0.dropId_withId (f : Finding0) (i : String) :
    (f.withId i).dropId = f := rfl

theorem attachIdsFrom_map_dropId (env : Env) :
    ∀ (k : Nat) (fs : List Finding0),
      (attachIdsFrom env k fs).map Finding.dropId = fs := by
  intro k fs
  induction fs generalizing k with
  | nil => rfl
  | cons f rest ih => simp [attachIdsFrom, Finding0.dropId_withId, ih]

theorem attachIdsFrom_filter_severity (env : Env) (s : Severity) :
    ∀ (k : Nat) (fs : List Finding0),
      ((attachIdsFrom env k fs).filter fun f => f.severity = s).length =
        (fs.filter fun f => f.severity = s).length := by
  intro k fs
  induction fs generalizing k with
  | nil => rfl
  | cons f rest ih =>
    by_cases h : f.severity = s <;>
      simp [attachIdsFrom, List.filter_cons, Finding0.withId, h, ih]

theorem attachIds_filter_severity (env : Env) (s : Severity)
    (fs : List Finding0) :
    ((attachIds env fs).filter fun f => f.severity = s).length =
      (fs.filter fun f => f.severity = s).length :=
  attachIdsFrom_filter_severity env s 0 fs

theorem calculateScore_attachIds (env env' : Env) (fs : List Finding0) :
    calculateScore (attachIds env fs) = calculateScore (attachIds env' fs) := by
  simp only [calculateScore, attachIds_filter_severity]

/-- The view of an `AnalysisResult` with the nondeterministic fields
(finding ids, `analyzedAt` timestamp) erased. -/
structure ResultCore where
  fileId : String
  fileName : String
  score : Int
  scoreExplanation : String
  errorCount : Nat
  warningCount : Nat
  infoCount : Nat
  findings : List Finding0
  sheets : List SheetInfo
deriving DecidableEq, Repr

/-- Erase the uuid-drawn finding ids and the timestamp. -/
def AnalysisResult.core (r : AnalysisResult) : ResultCore :=
  ⟨r.fileId, r.fileName, r.score, r.scoreExplanation, r.errorCount,
    r.warningCount, r.infoCount, r.findings.map Finding.dropId, r.sheets⟩

theorem attachIds_map_dropId (env : Env) (fs : List Finding0) :
    (attachIds env fs).map Finding.dropId = fs :=
  attachIdsFrom_map_dropId env 0 fs

theorem buildResult_core_env (env env' : Env) (fid fn : String)
    (fs0 : List Finding0) (sheets : List SheetInfo) :
    (buildResult env fid fn fs0 sheets).core =
      (buildResult env' fid fn fs0 sheets).core := by
  simp only [buildResult, AnalysisResult.core, attachIds_filter_severity,
    calculateScore_attachIds env env', attachIds_map_dropId]

theorem buildResult_counts (env : Env) (fid fn : String)
    (fs0 : List Finding0) (sheets : List SheetInfo) :
    (buildResult env fid fn fs0 sheets).errorCount +
      (buildResult env fid fn fs0 sheets).warningCount +
      (buildResult env fid fn fs0 sheets).infoCount =
      (buildResult env fid fn fs0 sheets).findings.length := by
  simp only [buildResult]
  exact severity_partition _

/-! ## Claim C1 — determinism of `analyzeWorkbook` -/

/-- C1 counterexample.  The claim asserts that two calls of
`analyzeWorkbook` on the same bytes, file identity and key-column selection
produce byte-identical `AnalysisResult` values.  The source draws a fresh
`uuidv4()` for every finding id and stamps `analyzedAt` with the current
clock, so two calls (modelled by two environments whose uuid draws differ)
produce different results even on identical inputs: here the single
finding's `id` differs between the two runs. -/
theorem claim_C1_counterexample :
    analyzeWorkbook envA wbEmpty "file-1" "data.xlsx" none ≠
      analyzeWorkbook envB wbEmpty "file-1" "data.xlsx" none := by
  decide

/-- C1 (amended): for any fixed parsed workbook, file identity and
key-column selection, two calls of `analyzeWorkbook` agree on everything
except the uuid-drawn finding ids and the `analyzedAt` timestamp: the same
findings (modulo id) in the same order, the same score, the same score
explanation, the same severity counts and the same sheet metadata. -/
theorem claim_C1_amended (env1 env2 : Env) (wb : Workbook)
    (fileId fileName : String) (sel : Option KeyColumn) :
    (analyzeWorkbook env1 wb fileId fileName sel).core =
      (analyzeWorkbook env2 wb fileId fileName sel).core := by
  by_cases h : wb.sheetNames.length = 0 <;>
    simp only [analyzeWorkbook, createEmptyResult, h, if_true, if_false,
      reduceIte] <;>
    exact buildResult_core_env _ _ _ _ _ _

/-! ## Claim C2 — the scoring formula -/

/-- The number of findings of a given severity. -/
def countSeverity (fs : List Finding) (s : Severity) : Nat :=
  (fs.filter fun f => f.severity = s).length

/-- C2: `calculateScore` returns exactly
`max(0, 100 - min(10 * errorCount, 70) - min(3 * warningCount, 30))`,
and prepending an `info` finding never changes the returned score. -/
theorem claim_C2 (fs : List Finding) :
    (calculateScore fs).1 =
      max 0 (100 - min (10 * (countSeverity fs Severity.error : Int)) 70 -
        min (3 * (countSeverity fs Severity.warning : Int)) 30) ∧
    ∀ f : Finding, f.severity = Severity.info →
      (calculateScore (f :: fs)).1 = (calculateScore fs).1 := by
  constructor
  · simp only [calculateScore, countSeverity]
    omega
  · intro f hf
    simp [calculateScore, List.filter_cons, hf]

/-- Witness for C2: an `info` finding prepended to the empty finding list
leaves the score unchanged. -/
theorem claim_C2_witness :
    (calculateScore
      [{ id := "i", severity := Severity.info, category := "General",
         sheet := "-", description := "note", suggestion := "none" }]).1 =
      (calculateScore []).1 :=
  (claim_C2 []).2
    { id := "i", severity := Severity.info, category := "General",
      sheet := "-", description := "note", suggestion := "none" } rfl

/-! ## Claim C3 — the severity-count invariant -/

/-- C3: every result produced by `analyzeWorkbook` — including the
zero-sheet early return through `createEmptyResult` — satisfies
`errorCount + warningCount + infoCount = findings.length`. -/
theorem claim_C3 (env : Env) (wb : Workbook) (fileId fileName : String)
    (sel : Option KeyColumn) :
    (analyzeWorkbook env wb fileId fileName sel).errorCount +
      (analyzeWorkbook env wb fileId fileName sel).warningCount +
      (analyzeWorkbook env wb fileId fileName sel).infoCount =
      (analyzeWorkbook env wb fileId fileName sel).findings.length := by
  by_cases h : wb.sheetNames.length = 0 <;>
    simp only [analyzeWorkbook, createEmptyResult, h, if_true, if_false,
      reduceIte] <;>
    exact buildResult_counts _ _ _ _ _

/-! ## Claim C5 — the zero-sheet workbook -/

/-- C5: a workbook with zero sheets yields a successful result (the
embedding is total once parsing succeeded) whose findings list is exactly
one `error` finding about no sheets being found, whose score is 90, and
whose sheets list is empty; no per-sheet check contributes anything. -/
theorem claim_C5 (env : Env) (wb : Workbook) (fileId fileName : String)
    (sel : Option KeyColumn) (h : wb.sheetNames = []) :
    (analyzeWorkbook env wb fileId fileName sel).findings =
      [noSheetsFinding.withId (env.uuids 0)] ∧
    (∀ f ∈ (analyzeWorkbook env wb fileId fileName sel).findings,
      f.severity = Severity.error ∧
        f.description = "No sheets found in workbook") ∧
    (analyzeWorkbook env wb fileId fileName sel).score = 90 ∧
    (analyzeWorkbook env wb fileId fileName sel).sheets = [] ∧
    (analyzeWorkbook env wb fileId fileName sel).errorCount = 1 ∧
    (analyzeWorkbook env wb fileId fileName sel).warningCount = 0 ∧
    (analyzeWorkbook env wb fileId fileName sel).infoCount = 0 := by
  simp [analyzeWorkbook, h, createEmptyResult, buildResult, attachIds,
    attachIdsFrom, calculateScore, getSheetInfo, noSheetsFinding,
    Finding0.withId]

/-- Witness for C5 at a concrete empty workbook. -/
theorem claim_C5_witness :
    (analyzeWorkbook env0 wbEmpty "file-1" "data.xlsx" none).findings =
      [noSheetsFinding.withId (env0.uuids 0)] ∧
    (∀ f ∈ (analyzeWorkbook env0 wbEmpty "file-1" "data.xlsx" none).findings,
      f.severity = Severity.error ∧
        f.description = "No sheets found in workbook") ∧
    (analyzeWorkbook env0 wbEmpty "file-1" "data.xlsx" none).score = 90 ∧
    (analyzeWorkbook env0 wbEmpty "file-1" "data.xlsx" none).sheets = [] ∧
    (analyzeWorkbook env0 wbEmpty "file-1" "data.xlsx" none).errorCount = 1 ∧
    (analyzeWorkbook env0 wbEmpty "file-1" "data.xlsx" none).warningCount = 0 ∧
    (analyzeWorkbook env0 wbEmpty "file-1" "data.xlsx" none).infoCount = 0 :=
  claim_C5 env0 wbEmpty "file-1" "data.xlsx" none rfl

/-! ## Claim C8 — the column-letter encoding -/

/-- The bijective base-26 letter encoding of a positive number: the
column with 1-based number `m` is written with final digit
`(m - 1) % 26` (A…Z) after the encoding of `(m - 1) / 26`. -/
def bijBase26 : Nat → String
  | 0 => ""
  | m + 1 => bijBase26 (m / 26) ++ String.singleton (Char.ofNat (m % 26 + 65))
termination_by m => m
decreasing_by
  simp_wf
  omega

theorem getColumnLetterLoop_neg (fuel : Nat) (t : Int) (acc : String)
    (h : t < 0) : getColumnLetterLoop fuel t acc = acc := by
  cases fuel with
  | zero => rfl
  | succ f =>
    simp only [getColumnLetterLoop]
    rw [if_neg (by omega)]

theorem getColumnLetterLoop_spec :
    ∀ n : Nat, ∀ (fuel : Nat) (acc : String), n < fuel →
      getColumnLetterLoop fuel (n : Int) acc = bijBase26 (n + 1) ++ acc := by
  intro n
  induction n using Nat.strong_induction_on with
  | _ n ih =>
    intro fuel acc hfuel
    obtain ⟨f, rfl⟩ : ∃ f, fuel = f + 1 := ⟨fuel - 1, by omega⟩
    simp only [getColumnLetterLoop]
    rw [if_pos (by exact_mod_cast Nat.zero_le n)]
    have hchar : ((n : Int) % 26).toNat + 65 = n % 26 + 65 := by omega
    by_cases h26 : n < 26
    · have ht : (n : Int) / 26 - 1 < 0 := by omega
      rw [getColumnLetterLoop_neg _ _ _ ht]
      have hdiv : n / 26 = 0 := Nat.div_eq_of_lt h26
      simp only [bijBase26, hdiv, hchar, String.empty_append]
    · have hq : (n : Int) / 26 - 1 = ((n / 26 - 1 : Nat) : Int) := by omega
      have hlt : n / 26 - 1 < n := by omega
      have hfl : n / 26 - 1 < f := by omega
      rw [hq, ih (n / 26 - 1) hlt f _ hfl]
      have hsucc : n / 26 - 1 + 1 = n / 26 := by
        have h1 : 1 ≤ n / 26 := (Nat.one_le_div_iff (by norm_num)).mpr (by omega)
        omega
      rw [hsucc]
      conv_rhs => rw [show n + 1 = n + 1 from rfl]
      simp only [bijBase26, hchar, String.append_assoc]

/-- C8: `getColumnLetter` is exactly the bijective base-26 letter encoding
(of the 1-based column number), with the spec's stated values at the
off-by-one test points 0, 25, 26 and 701. -/
theorem claim_C8 :
    (∀ n : Nat, getColumnLetter n = bijBase26 (n + 1)) ∧
    getColumnLetter 0 = "A" ∧ getColumnLetter 25 = "Z" ∧
    getColumnLetter 26 = "AA" ∧ getColumnLetter 701 = "ZZ" := by
  refine ⟨fun n => ?_, by decide, by decide, by decide, by decide⟩
  have h := getColumnLetterLoop_spec n (n + 1) "" (by omega)
  simpa [getColumnLetter, String.append_empty] using h

/-! ## Claim C6 — header-quality blank-header findings -/

/-- C6: for a processed sheet (a well-formed clamped range), if every
column's header is blank the check emits exactly one `error` finding (and
no blank-header `warning`); if some but not all headers are blank it emits
exactly one `warning` finding whose column field lists exactly the blank
columns by letter. -/
theorem claim_C6 (ws : Worksheet) (sr : Nat) (limited : Range)
    (sheetName : String) (hle : limited.sc ≤ limited.ec) :
    ((∀ c ∈ idxList limited.sc limited.ec, isBlankHeader ws sr c) →
      blankHeaderFindings ws sr limited sheetName =
        [{ severity := .error
           category := "Header Quality"
           sheet := sheetName
           description := "Missing header row - first row is completely blank"
           suggestion := "Add descriptive column headers in the first row." }]) ∧
    ((∃ c ∈ idxList limited.sc limited.ec, isBlankHeader ws sr c) →
      (∃ c ∈ idxList limited.sc limited.ec, ¬ isBlankHeader ws sr c) →
      blankHeaderFindings ws sr limited sheetName =
        [{ severity := .warning
           category := "Header Quality"
           sheet := sheetName
           column := some (String.intercalate ", "
             (emptyHeaderLetters ws sr limited))
           description := "Empty column headers in columns: " ++
             String.intercalate ", " (emptyHeaderLetters ws sr limited)
           suggestion := "Add headers to all columns for better data clarity." }]) := by
  have hcols : (idxList limited.sc limited.ec).length =
      limited.ec - limited.sc + 1 := by
    unfold idxList
    rw [List.length_range']
    omega
  constructor
  · intro h
    have hfil : (idxList limited.sc limited.ec).filter
        (fun col => isBlankHeader ws sr col) = idxList limited.sc limited.ec :=
      List.filter_eq_self.mpr h
    have hlen : (emptyHeaderLetters ws sr limited).length =
        limited.ec - limited.sc + 1 := by
      unfold emptyHeaderLetters
      rw [List.length_map, hfil, hcols]
    unfold blankHeaderFindings
    rw [if_pos hlen]
  · rintro ⟨c, hc, hblank⟩ ⟨c', hc', hnonblank⟩
    have hne : (emptyHeaderLetters ws sr limited).length ≠
        limited.ec - limited.sc + 1 := by
      intro heq
      have hlenf : ((idxList limited.sc limited.ec).filter
          (fun col => isBlankHeader ws sr col)).length =
          (idxList limited.sc limited.ec).length := by
        have := heq
        unfold emptyHeaderLetters at this
        rw [List.length_map] at this
        omega
      have hfil : (idxList limited.sc limited.ec).filter
          (fun col => isBlankHeader ws sr col) = idxList limited.sc limited.ec :=
        (List.filter_sublist _).eq_of_length hlenf
      have : isBlankHeader ws sr c' = true := by
        have hmem : c' ∈ (idxList limited.sc limited.ec).filter
            (fun col => isBlankHeader ws sr col) := hfil.symm ▸ hc'
        exact (List.mem_filter.mp hmem).2
      exact hnonblank this
    have hpos : (emptyHeaderLetters ws sr limited).length > 0 := by
      have hmem : c ∈ (idxList limited.sc limited.ec).filter
          (fun col => isBlankHeader ws sr col) :=
        List.mem_filter.mpr ⟨hc, hblank⟩
      have : getColumnLetter c ∈ emptyHeaderLetters ws sr limited := by
        unfold emptyHeaderLetters
        exact List.mem_map_of_mem _ hmem
      exact List.length_pos.mpr (List.ne_nil_of_mem this)
    unfold blankHeaderFindings
    rw [if_neg hne, if_pos hpos]

/-- The five-column sheet of the C6 witness: one blank header (column B)
among five. -/
def wsFiveHeaders : Worksheet :=
  { ref := some ⟨0, 0, 3, 4⟩
    cells := fun r c =>
      if r = 0 then
        match c with
        | 0 => some { t := "s", v := some (.str "Name") }
        | 1 => some { t := "s", v := some (.str "") }
        | 2 => some { t := "s", v := some (.str "Age") }
        | 3 => some { t := "s", v := some (.str "City") }
        | 4 => some { t := "s", v := some (.str "Zip") }
        | _ => none
      else none }

/-- Witness for C6: one blank header among five yields exactly one warning
listing that column letter. -/
theorem claim_C6_witness :
    blankHeaderFindings wsFiveHeaders 0 ⟨0, 0, 3, 4⟩ "Sheet1" =
      [{ severity := .warning
         category := "Header Quality"
         sheet := "Sheet1"
         column := some (String.intercalate ", "
           (emptyHeaderLetters wsFiveHeaders 0 ⟨0, 0, 3, 4⟩))
         description := "Empty column headers in columns: " ++
           String.intercalate ", " (emptyHeaderLetters wsFiveHeaders 0 ⟨0, 0, 3, 4⟩)
         suggestion := "Add headers to all columns for better data clarity." }] :=
  (claim_C6 wsFiveHeaders 0 ⟨0, 0, 3, 4⟩ "Sheet1" (by decide)).2
    ⟨1, by decide, by decide⟩ ⟨0, by decide, by decide⟩

/-! ## Claim C9 — falsy row-0 cells are blank headers -/

/-- A sheet whose A1 cell is numeric `0` (with a real header in B1 and a
data row below). -/
def wsZeroHeader : Worksheet :=
  { ref := some ⟨0, 0, 1, 1⟩
    cells := fun r c =>
      match r, c with
      | 0, 0 => some { t := "n", v := some (.num 0) }
      | 0, 1 => some { t := "s", v := some (.str "Name") }
      | 1, 0 => some { t := "n", v := some (.num 5) }
      | 1, 1 => some { t := "s", v := some (.str "Ada") }
      | _, _ => none }

def wbZeroHeader : Workbook :=
  ⟨["Sheet1"], fun _ => wsZeroHeader, fun _ => 0⟩

/-- A one-column sheet whose only row-0 cell is boolean `false`. -/
def wsFalseHeader : Worksheet :=
  { ref := some ⟨0, 0, 0, 0⟩
    cells := fun r c =>
      match r, c with
      | 0, 0 => some { t := "b", v := some (.bool false) }
      | _, _ => none }

/-- C9: a present row-0 cell whose value is numeric `0` or boolean `false`
is coerced to the empty string by `String(cell.v || '')`, so the header
checks treat the column as blank — counted toward the blank-header warning
(numeric `0` among real headers) or the missing-header-row error (an
all-`false` first row) — and `getSheetInfo` reports an empty-string header
for it. -/
theorem claim_C9 (c : Cell)
    (h : c.v = some (CellVal.num 0) ∨ c.v = some (CellVal.bool false)) :
    headerString (some c) = "" ∧
    getSheetInfo wbZeroHeader =
      [{ name := "Sheet1", isHidden := false, rowCount := 2, columnCount := 2,
         headers := ["", "Name"], hasData := true }] ∧
    blankHeaderFindings wsZeroHeader 0 ⟨0, 0, 1, 1⟩ "Sheet1" =
      [{ severity := .warning
         category := "Header Quality"
         sheet := "Sheet1"
         column := some "A"
         description := "Empty column headers in columns: A"
         suggestion := "Add headers to all columns for better data clarity." }] ∧
    blankHeaderFindings wsFalseHeader 0 ⟨0, 0, 0, 0⟩ "Sheet1" =
      [{ severity := .error
         category := "Header Quality"
         sheet := "Sheet1"
         description := "Missing header row - first row is completely blank"
         suggestion := "Add descriptive column headers in the first row." }] := by
  refine ⟨?_, by decide, by decide, by decide⟩
  rcases h with h | h <;>
    simp [headerString, jsStringOrEmpty, h, CellVal.falsy]

/-- Witness for C9 at a concrete numeric-`0` cell. -/
theorem claim_C9_witness :
    headerString (some { t := "n", v := some (.num 0) : Cell }) = "" :=
  (claim_C9 { t := "n", v := some (.num 0) } (Or.inl rfl)).1

/-! ## Claim C10 — the month-prefix date pattern -/

/-- The six-row, one-column sheet of the C10 scenario: header `Notes` and
five string values of which four merely start with a month abbreviation
(none is a date). -/
def wsMonths : Worksheet :=
  { ref := some ⟨0, 0, 5, 0⟩
    cells := fun r c =>
      if c = 0 then
        match r with
        | 0 => some { t := "s", v := some (.str "Notes") }
        | 1 => some { t := "s", v := some (.str "Junk") }
        | 2 => some { t := "s", v := some (.str "Market") }
        | 3 => some { t := "s", v := some (.str "Maybe") }
        | 4 => some { t := "s", v := some (.str "December totals") }
        | 5 => some { t := "s", v := some (.str "alpha") }
        | _ => none
      else none }

set_option maxRecDepth 100000 in
/-- C10: any string whose lower-cased form starts with a three-letter month
abbreviation counts as date-like (the third pattern anchors only a prefix),
e.g. "Junk", "Market", "Maybe" and "December totals" — none of which
matches a numeric date pattern — and a column of ≥ 5 non-blank values in
which more than 20% of the values merely carry such a prefix triggers the
text-formatted-dates warning. -/
theorem claim_C10 :
    (∀ (s m : String), m ∈ MONTH_PREFIXES →
      m.toList.isPrefixOf (lowerStr s).toList = true →
      isDateLikeString s = true) ∧
    isDateLikeString "Junk" = true ∧
    isDateLikeString "Market" = true ∧
    isDateLikeString "Maybe" = true ∧
    isDateLikeString "December totals" = true ∧
    (["Junk", "Market", "Maybe", "December totals"].all fun s =>
      !matchesDatePattern1 s && !matchesDatePattern2 s) = true ∧
    analyzeDataTypeAnomalies wsMonths ⟨0, 0, 5, 0⟩ "Sheet1" =
      [{ severity := .warning
         category := "Data Type Anomaly"
         sheet := "Sheet1"
         column := some "Notes"
         description := "4 values (80%) appear to be text-formatted dates"
         suggestion := "Convert text dates to proper Excel date format for better sorting and calculations." }] := by
  refine ⟨?_, by decide, by decide, by decide, by decide, by decide, by decide⟩
  intro s m hm hpre
  have h3 : matchesDatePattern3 s = true := by
    unfold matchesDatePattern3
    exact List.any_eq_true.mpr ⟨m, hm, hpre⟩
  simp [isDateLikeString, h3]

/-- Witness for C10: the month-prefix rule applied to "Junk" / "jun". -/
theorem claim_C10_witness : isDateLikeString "Junk" = true :=
  claim_C10.1 "Junk" "jun" (by decide) (by decide)

/-! ## Claim C4 — the 25-sheet workbook -/

/-- Sheet names `Sheet1 … Sheet25`. -/
def wb25names : List String :=
  (List.range 25).map fun i => "Sheet" ++ toString (i + 1)

/-- A workbook with 25 (empty 1×1) sheets. -/
def wb25 : Workbook :=
  ⟨wb25names, fun _ => ⟨none, fun _ _ => none⟩, fun _ => 0⟩

set_option maxRecDepth 1000000 in
/-- C4 counterexample.  The claim asserts the workbook-level
"Processing Limits" warning names the dropped sheets; in the source both
its description and its suggestion list only the *processed* sheets
(`sheetsToProcess.join(', ')`).  On a 25-sheet workbook the unique
Processing Limits finding's text does not mention any dropped sheet
(`Sheet21` … `Sheet25`). -/
theorem claim_C4_counterexample :
    (((analyzeWorkbook env0 wb25 "file-1" "data.xlsx" none).findings.filter
        fun f => f.category = "Processing Limits").map
      fun f => (wb25names.drop 20).map
        fun n => strContains (f.description ++ f.suggestion) n) =
      [[false, false, false, false, false]] := by
  decide

set_option maxRecDepth 1000000 in
/-- C4 (amended): for the 25-sheet workbook, `analyzeWorkbook` runs the
per-sheet checks on exactly the first 20 sheets in declaration order
(each of these empty sheets contributes its two findings; the dropped five
contribute none) and emits exactly one workbook-level `warning` finding in
category "Processing Limits" naming the *processed* sheets (the first 20),
not the dropped ones. -/
theorem claim_C4_amended :
    (((analyzeWorkbook env0 wb25 "file-1" "data.xlsx" none).findings.filter
        fun f => f.category = "Processing Limits") =
      [{ id := env0.uuids 0
         severity := .warning
         category := "Processing Limits"
         sheet := "-"
         description := "Workbook contains 25 sheets. Only the first 20 sheets will be analyzed due to processing limits."
         suggestion := "Consider splitting your workbook or analyzing sheets in batches. Only sheets: Sheet1, Sheet2, Sheet3, Sheet4, Sheet5, Sheet6, Sheet7, Sheet8, Sheet9, Sheet10, Sheet11, Sheet12, Sheet13, Sheet14, Sheet15, Sheet16, Sheet17, Sheet18, Sheet19, Sheet20 will be processed." }]) ∧
    ((wb25names.take 20).all fun n =>
      strContains
        (((analyzeWorkbook env0 wb25 "file-1" "data.xlsx" none).findings.filter
            fun f => f.category = "Processing Limits").foldl
          (fun acc f => acc ++ f.suggestion) "") n) = true ∧
    ((List.range 25).all fun i =>
      (((analyzeWorkbook env0 wb25 "file-1" "data.xlsx" none).findings.filter
          fun f => f.sheet = "Sheet" ++ toString (i + 1)).length =
        if i < 20 then 2 else 0)) = true := by
  refine ⟨by decide, by decide, by decide⟩

/-! ## Claim C7 — duplicate-key detection -/

/-- The 1-indexed rows (in scan order) whose stringified key-column value
equals `v` — the reference notion of "the rows of a value". -/
def rowsOfValue (l : List (String × Nat)) (v : String) : List Nat :=
  (l.filter fun p => p.1 = v).map fun p => p.2

theorem bumpList_any_iff {β : Type} (m : List (String × List β)) (k : String) :
    (m.any fun p => p.1 == k) = true ↔ k ∈ m.map Prod.fst := by
  rw [List.any_eq_true]
  constructor
  · rintro ⟨p, hp, hpk⟩
    exact List.mem_map.mpr ⟨p, hp, by simpa using hpk⟩
  · intro h
    obtain ⟨p, hp, hpk⟩ := List.mem_map.mp h
    exact ⟨p, hp, by simpa using hpk⟩

theorem bumpList_mem {β : Type} (m : List (String × List β)) (k : String)
    (x : β) (h : k ∈ m.map Prod.fst) :
    bumpList m k x = m.map fun q => if q.1 == k then (q.1, q.2 ++ [x]) else q := by
  unfold bumpList
  rw [if_pos ((bumpList_any_iff m k).mpr h)]

theorem bumpList_not_mem {β : Type} (m : List (String × List β)) (k : String)
    (x : β) (h : k ∉ m.map Prod.fst) :
    bumpList m k x = m ++ [(k, [x])] := by
  unfold bumpList
  rw [if_neg]
  intro hc
  exact h ((bumpList_any_iff m k).mp hc)

theorem rowsOfValue_append (l : List (String × Nat)) (k : String) (x : Nat)
    (v : String) :
    rowsOfValue (l ++ [(k, x)]) v =
      rowsOfValue l v ++ (if k = v then [x] else []) := by
  unfold rowsOfValue
  rw [List.filter_append, List.map_append]
  congr 1
  by_cases h : k = v <;> simp [List.filter_cons, h]

theorem rowsOfValue_eq_nil (l : List (String × Nat)) (v : String)
    (h : v ∉ l.map Prod.fst) : rowsOfValue l v = [] := by
  unfold rowsOfValue
  have hf : l.filter (fun p => p.1 = v) = [] := by
    rw [List.filter_eq_nil_iff]
    intro p hp
    simp only [decide_eq_true_eq]
    intro hpv
    exact h (List.mem_map.mpr ⟨p, hp, hpv⟩)
  rw [hf, List.map_nil]

/-- The correctness invariant of the `valueCounts` accumulation: the keys
are exactly the distinct scanned values (without repetition), and each
entry's row list is exactly that value's rows in scan order. -/
theorem valueCounts_inv (l : List (String × Nat)) :
    ((l.foldl (fun m p => bumpList m p.1 p.2) []).map Prod.fst).Nodup ∧
    (∀ q ∈ l.foldl (fun m p => bumpList m p.1 p.2) [],
      q.2 = rowsOfValue l q.1) ∧
    (∀ k, k ∈ (l.foldl (fun m p => bumpList m p.1 p.2) []).map Prod.fst ↔
      k ∈ l.map Prod.fst) := by
  induction l using List.reverseRecOn with
  | nil => simp
  | append_singleton l p ih =>
    obtain ⟨ihnd, ihval, ihkeys⟩ := ih
    rw [List.foldl_append] at *
    simp only [List.foldl_cons, List.foldl_nil] at *
    by_cases hmem : p.1 ∈ (l.foldl (fun m p => bumpList m p.1 p.2) []).map Prod.fst
    · rw [bumpList_mem _ _ _ hmem]
      have hkeys : ((l.foldl (fun m p => bumpList m p.1 p.2) []).map
          (fun q => if q.1 == p.1 then (q.1, q.2 ++ [p.2]) else q)).map Prod.fst =
          (l.foldl (fun m p => bumpList m p.1 p.2) []).map Prod.fst := by
        rw [List.map_map]
        apply List.map_congr_left
        intro q _
        by_cases h : q.1 = p.1 <;> simp [h]
      refine ⟨by rw [hkeys]; exact ihnd, ?_, ?_⟩
      · intro q hq
        obtain ⟨q0, hq0, rfl⟩ := List.mem_map.mp hq
        by_cases h : q0.1 = p.1
        · have hb : (q0.1 == p.1) = true := by simpa using h
          rw [if_pos hb]
          show q0.2 ++ [p.2] = rowsOfValue (l ++ [p]) q0.1
          rw [rowsOfValue_append, if_pos h.symm, ihval q0 hq0]
        · have hnb : ¬ ((q0.1 == p.1) = true) := by simp [h]
          rw [if_neg hnb]
          show q0.2 = rowsOfValue (l ++ [p]) q0.1
          rw [rowsOfValue_append, if_neg (fun hc => h hc.symm), List.append_nil]
          exact ihval q0 hq0
      · intro k
        rw [hkeys, ihkeys, List.map_append, List.mem_append]
        constructor
        · exact fun h => Or.inl h
        · rintro (h | h)
          · exact h
          · simp only [List.map_cons, List.map_nil, List.mem_singleton] at h
            rw [h]
            exact (ihkeys p.1).mp hmem
    · rw [bumpList_not_mem _ _ _ hmem]
      have hkeys : ((l.foldl (fun m p => bumpList m p.1 p.2) []) ++
          [(p.1, [p.2])]).map Prod.fst =
          (l.foldl (fun m p => bumpList m p.1 p.2) []).map Prod.fst ++ [p.1] := by
        rw [List.map_append]
        rfl
      refine ⟨?_, ?_, ?_⟩
      · rw [hkeys]
        simp only [List.nodup_append, List.nodup_cons, List.not_mem_nil,
          not_false_iff, List.nodup_nil, and_true, true_and]
        refine ⟨ihnd, ?_⟩
        intro a ha hb
        simp only [List.mem_singleton] at hb
        exact hmem (hb ▸ ha)
      · intro q hq
        rcases List.mem_append.mp hq with hq | hq
        · have hne : p.1 ≠ q.1 := by
            intro hc
            exact hmem (hc ▸ List.mem_map_of_mem Prod.fst hq)
          rw [rowsOfValue_append, if_neg hne, List.append_nil]
          exact ihval q hq
        · simp only [List.mem_singleton] at hq
          subst hq
          rw [rowsOfValue_append, if_pos rfl,
            rowsOfValue_eq_nil l p.1 (fun hc => hmem ((ihkeys p.1).mpr hc)),
            List.nil_append]
      · intro k
        rw [hkeys, List.map_append, List.mem_append, List.mem_append, ihkeys]
        simp

theorem insertByNum_perm {β : Type} (p : String × β)
    (l : List (String × β)) : (insertByNum p l).Perm (p :: l) := by
  induction l with
  | nil => exact List.Perm.refl _
  | cons q rest ih =>
    unfold insertByNum
    by_cases h : keyNum p.1 ≤ keyNum q.1
    · rw [if_pos h]
    · rw [if_neg h]
      exact (List.Perm.cons q ih).trans (List.Perm.swap p q rest)

theorem sortByNum_perm {β : Type} (l : List (String × β)) :
    (sortByNum l).Perm l := by
  induction l with
  | nil => exact List.Perm.refl _
  | cons p rest ih =>
    unfold sortByNum
    exact (insertByNum_perm p (sortByNum rest)).trans (List.Perm.cons p ih)

theorem recordEntries_perm {β : Type} (m : List (String × β)) :
    (recordEntries m).Perm m := by
  unfold recordEntries
  refine List.Perm.trans ?_
    (List.filter_append_perm (fun p => isArrayIndexStr p.1) m)
  exact (sortByNum_perm _).append_right _

theorem dupGroups_perm (ws : Worksheet) (range : Range) (ci : Nat) :
    (dupGroups ws range ci).Perm
      ((valueCounts ws range ci).filter fun p => p.2.length > 1) := by
  unfold dupGroups
  exact (recordEntries_perm _).filter _

theorem dupGroups_mem (ws : Worksheet) (range : Range) (ci : Nat)
    (q : String × List Nat) :
    q ∈ dupGroups ws range ci ↔
      q ∈ valueCounts ws range ci ∧ 2 ≤ q.2.length := by
  rw [(dupGroups_perm ws range ci).mem_iff, List.mem_filter]
  simp only [decide_eq_true_eq, gt_iff_lt]
  exact and_congr_right fun _ => Iff.rfl

theorem dupGroups_keys_nodup (ws : Worksheet) (range : Range) (ci : Nat) :
    ((dupGroups ws range ci).map Prod.fst).Nodup := by
  have h1 : (((valueCounts ws range ci).filter
      fun p => p.2.length > 1).map Prod.fst).Nodup :=
    ((List.filter_sublist _).map Prod.fst).nodup
      (valueCounts_inv (keyRows ws range ci)).1
  exact ((dupGroups_perm ws range ci).symm.map Prod.fst).nodup h1

/-- The C7 scenario sheet: header `id` in A1 and the key-column values
1, 2, 1, 3, 2, 2 in rows 2–7. -/
def wsDup : Worksheet :=
  { ref := some ⟨0, 0, 6, 0⟩
    cells := fun r c =>
      if c = 0 then
        match r with
        | 0 => some { t := "s", v := some (.str "id") }
        | 1 => some { t := "n", v := some (.num 1) }
        | 2 => some { t := "n", v := some (.num 2) }
        | 3 => some { t := "n", v := some (.num 1) }
        | 4 => some { t := "n", v := some (.num 3) }
        | 5 => some { t := "n", v := some (.num 2) }
        | 6 => some { t := "n", v := some (.num 2) }
        | _ => none
      else none }

/-- C7: on the key column holding 1, 2, 1, 3, 2, 2 in rows 2–7 the check
emits exactly one `error` finding reporting 2 duplicate groups and 5
affected rows (rows 2, 4 for value "1" and 3, 6, 7 for value "2"); in
general it emits one finding iff some stringified value occurs in at least
two rows, the duplicate groups enumerate exactly those values (each once,
with exactly its rows), and the finding's affected-row list concatenates
the groups' row lists. -/
theorem claim_C7 :
    (detectDuplicateKeys wsDup ⟨0, 0, 6, 0⟩ ⟨"Data", "id", 0⟩ =
      [{ severity := .error
         category := "Duplicate Keys"
         sheet := "Data"
         column := some "id"
         rowNumbers := some [2, 4, 3, 6, 7]
         description := "2 duplicate values found affecting 5 rows: \"1\" (rows 2, 4); \"2\" (rows 3, 6, 7)"
         suggestion := "Remove or fix duplicate key values to ensure data integrity." }]) ∧
    ∀ (ws : Worksheet) (range : Range) (kc : KeyColumn),
      ((detectDuplicateKeys ws range kc ≠ []) ↔
        ∃ v, 2 ≤ (rowsOfValue (keyRows ws range kc.columnIndex) v).length) ∧
      (detectDuplicateKeys ws range kc).length ≤ 1 ∧
      ((dupGroups ws range kc.columnIndex).map Prod.fst).Nodup ∧
      (∀ v, v ∈ (dupGroups ws range kc.columnIndex).map Prod.fst ↔
        2 ≤ (rowsOfValue (keyRows ws range kc.columnIndex) v).length) ∧
      (∀ q ∈ dupGroups ws range kc.columnIndex,
        q.2 = rowsOfValue (keyRows ws range kc.columnIndex) q.1) ∧
      (∀ f ∈ detectDuplicateKeys ws range kc,
        f.severity = .error ∧
          f.rowNumbers =
            some ((dupGroups ws range kc.columnIndex).flatMap fun d => d.2)) := by
  refine ⟨by decide, ?_⟩
  intro ws range kc
  have hinv := valueCounts_inv (keyRows ws range kc.columnIndex)
  obtain ⟨hnd, hval, hkeys⟩ := hinv
  have hvals : ∀ q ∈ dupGroups ws range kc.columnIndex,
      q.2 = rowsOfValue (keyRows ws range kc.columnIndex) q.1 := by
    intro q hq
    exact hval q ((dupGroups_mem ws range kc.columnIndex q).mp hq).1
  have hmemiff : ∀ v, v ∈ (dupGroups ws range kc.columnIndex).map Prod.fst ↔
      2 ≤ (rowsOfValue (keyRows ws range kc.columnIndex) v).length := by
    intro v
    constructor
    · intro hv
      obtain ⟨q, hq, rfl⟩ := List.mem_map.mp hv
      have h2 := (dupGroups_mem ws range kc.columnIndex q).mp hq
      rw [← hvals q hq]
      exact h2.2
    · intro hlen
      have hvk : v ∈ (keyRows ws range kc.columnIndex).map Prod.fst := by
        by_contra hc
        rw [rowsOfValue_eq_nil _ v hc] at hlen
        simp at hlen
      have hvc : v ∈ (valueCounts ws range kc.columnIndex).map Prod.fst :=
        (hkeys v).mpr hvk
      obtain ⟨q, hq, hq1⟩ := List.mem_map.mp hvc
      have hrows := hval q hq
      have hqd : q ∈ dupGroups ws range kc.columnIndex :=
        (dupGroups_mem ws range kc.columnIndex q).mpr
          ⟨hq, by rw [hrows, hq1]; exact hlen⟩
      exact List.mem_map.mpr ⟨q, hqd, hq1⟩
  have hne : (detectDuplicateKeys ws range kc ≠ []) ↔
      ∃ v, 2 ≤ (rowsOfValue (keyRows ws range kc.columnIndex) v).length := by
    unfold detectDuplicateKeys
    by_cases hd : (dupGroups ws range kc.columnIndex).length > 0
    · rw [if_pos hd]
      simp only [ne_eq, List.cons_ne_nil, not_false_iff, true_iff]
      obtain ⟨q, hq⟩ := List.exists_mem_of_length_pos hd
      exact ⟨q.1, (hmemiff q.1).mp (List.mem_map_of_mem Prod.fst hq)⟩
    · rw [if_neg hd]
      simp only [ne_eq, not_true_eq_false, false_iff, not_exists, not_le]
      intro v
      by_contra hc
      push_neg at hc
      have hv := (hmemiff v).mpr hc
      obtain ⟨q, hq, _⟩ := List.mem_map.mp hv
      exact hd (List.length_pos.mpr (List.ne_nil_of_mem hq))
  refine ⟨hne, ?_, dupGroups_keys_nodup ws range kc.columnIndex, hmemiff,
    hvals, ?_⟩
  · unfold detectDuplicateKeys
    by_cases hd : (dupGroups ws range kc.columnIndex).length > 0 <;>
      simp [hd]
  · intro f hf
    unfold detectDuplicateKeys at hf
    by_cases hd : (dupGroups ws range kc.columnIndex).length > 0
    · rw [if_pos hd] at hf
      simp only [List.mem_singleton] at hf
      subst hf
      exact ⟨rfl, rfl⟩
    · rw [if_neg hd] at hf
      exact absurd hf (List.not_mem_nil f)

/-- Witness for C7: the scenario column has a value ("2") occupying at
least two rows, so the check fires. -/
theorem claim_C7_witness :
    detectDuplicateKeys wsDup ⟨0, 0, 6, 0⟩ ⟨"Data", "id", 0⟩ ≠ [] :=
  ((claim_C7.2 wsDup ⟨0, 0, 6, 0⟩ ⟨"Data", "id", 0⟩).1).mpr ⟨"2", by decide⟩
